import Mathlib

/-!
Verification of the zero-ETL provisioning script (`src/zero-etl.py`).

The script is a linear orchestration of AWS control-plane calls: it creates
an Aurora MySQL source cluster (with its parameter group), a Redshift target
cluster (with its parameter group and a resource policy), polls until all
resources are available, and finally creates a zero-ETL integration.

We embed the script shallowly as a trace semantics: an `Env` records the
responses a (mocked) backend returns, each API invocation becomes a value of
the inductive `ApiCall`, and each Python function becomes a Lean function
producing the list of calls it issues, in order.  The unbounded polling loop
`wait_for_cluster_availability` is modelled with explicit fuel: `none` means
the fuel ran out before the loop terminated.
-/

namespace ZeroEtl

/-- A parameter entry passed to `rds.modify_db_cluster_parameter_group`
(name, value, apply method). -/
structure RdsParam where
  parameterName : String
  parameterValue : String
  applyMethod : String
  deriving DecidableEq, Repr

/-- A parameter entry passed to `redshift.modify_cluster_parameter_group`
(name and value only; the script passes no apply method here). -/
structure RedshiftParam where
  parameterName : String
  parameterValue : String
  deriving DecidableEq, Repr

/-- One external API invocation issued by the script, with the arguments the
script passes.  Constructors follow the boto3 method names used in
`zero-etl.py`.  `delete_resource` is never emitted by the embedded script; it
exists so that "no rollback/deletion happens" is a statement about traces
rather than a vacuity of the type. -/
inductive ApiCall where
  | create_db_cluster_parameter_group
      (name family description : String)
  | modify_db_cluster_parameter_group
      (name : String) (parameters : List RdsParam)
  | create_db_cluster
      (id paramGroup engine engineVersion databaseName
       masterUsername masterUserPassword : String)
  | create_db_instance
      (instanceClass clusterId instanceId engine : String)
  | create_cluster_parameter_group
      (name family description : String)
  | modify_cluster_parameter_group
      (name : String) (parameters : List RedshiftParam)
  | create_cluster
      (id nodeType : String) (numberOfNodes : Nat) (encrypted : Bool)
      (masterUsername masterUserPassword paramGroup : String)
  | describe_clusters (id : String)
  | get_caller_identity
  | put_resource_policy (resourceArn policy : String)
  | describe_db_clusters (id : String)
  | describe_db_instances (id : String)
  | sleepCall (seconds : Nat)
  | create_integration (sourceArn targetArn integrationName : String)
  | delete_resource (arn : String)
  deriving DecidableEq, Repr

/-- The responses returned by the (mocked) AWS backend.  Poll-dependent
answers are functions of the poll-cycle index (0-based). -/
structure Env where
  /-- `DBClusterArn` in the response of `rds.create_db_cluster`. -/
  createSourceArn : String
  /-- `ClusterNamespaceArn` in the response of `redshift.describe_clusters`
  during target provisioning. -/
  namespaceArn : String
  /-- `Account` in the response of `sts.get_caller_identity`. -/
  accountId : String
  /-- `Status` of the source cluster at poll cycle `n`. -/
  pollSourceStatus : Nat → String
  /-- `DBInstanceStatus` of the source writer instance at poll cycle `n`. -/
  pollInstanceStatus : Nat → String
  /-- `ClusterStatus` of the target cluster at poll cycle `n`. -/
  pollTargetStatus : Nat → String
  /-- `DBClusterArn` from `rds.describe_db_clusters` at poll cycle `n`. -/
  pollSourceArn : Nat → String
  /-- `ClusterNamespaceArn` from `redshift.describe_clusters` at poll
  cycle `n`. -/
  pollNamespaceArn : Nat → String

/- Module-level configuration constants of the script. -/

def source_cluster_name : String := "my-source-cluster"

def source_param_group_name : String := "my-source-param-group"

def target_cluster_name : String := "my-target-cluster"

def target_param_group_name : String := "my-target-param-group"

/-- The `Parameters` list passed to `rds.modify_db_cluster_parameter_group`,
in the order it appears in the script. -/
def sourceBinlogParams : List RdsParam :=
  [ ⟨"aurora_enhanced_binlog", "1", "pending-reboot"⟩,
    ⟨"binlog_backup", "0", "pending-reboot"⟩,
    ⟨"binlog_format", "ROW", "pending-reboot"⟩,
    ⟨"binlog_replication_globaldb", "0", "pending-reboot"⟩,
    ⟨"binlog_row_image", "full", "pending-reboot"⟩,
    ⟨"binlog_row_metadata", "full", "pending-reboot"⟩ ]

/-- Text of the resource-policy document up to (and including) the opening
quote of the `aws:SourceArn` condition value, exactly as in the Python
triple-quoted literal. -/
def policyPart1 : String :=
  "\n        \x7b\n            \"Version\":\"2012-10-17\",\n            \"Statement\":[\n                \x7b\"Effect\":\"Allow\",\n                \"Principal\":\x7b\n                    \"Service\":\"redshift.amazonaws.com\"\n                \x7d,\n                \"Action\":[\"redshift:AuthorizeInboundIntegration\"],\n                \"Condition\":\x7b\n                    \"StringEquals\":\x7b\n                        \"aws:SourceArn\":\""

/-- Text of the resource-policy document between the first `%s` (source ARN)
and the second `%s` (account id). -/
def policyPart2 : String :=
  "\"\x7d\n                    \x7d\n                \x7d,\n                \x7b\"Effect\":\"Allow\",\n                \"Principal\":\x7b\n                    \"AWS\":\"arn:aws:iam::"

/-- Text of the resource-policy document after the account id. -/
def policyPart3 : String :=
  ":root\"\x7d,\n                \"Action\":\"redshift:CreateInboundIntegration\"\x7d\n            ]\n        \x7d\n        "

/-- The policy string passed to `redshift.put_resource_policy`: the Python
percent-formatting of the triple-quoted template over the source ARN and the
account id. -/
def policyDocument (source_arn account_id : String) : String :=
  policyPart1 ++ source_arn ++ policyPart2 ++ account_id ++ policyPart3

/-- Trace of `create_target_cluster(target_cluster_name, source_arn,
target_param_group_name)`. -/
def create_target_cluster (env : Env)
    (tname source_arn pgname : String) : List ApiCall :=
  [ .create_cluster_parameter_group pgname "redshift-1.0"
      "For Aurora MySQL zero-ETL integrations",
    .modify_cluster_parameter_group pgname
      [⟨"enable_case_sensitive_identifier", "true"⟩],
    .create_cluster tname "ra3.4xlarge" 2 true
      "username" "Password01**" pgname,
    .describe_clusters tname,
    .get_caller_identity,
    .put_resource_policy env.namespaceArn
      (policyDocument source_arn env.accountId) ]

/-- Trace of `create_source_cluster(*args)`.  The Python signature accepts
arbitrary positional arguments and ignores them; `args` mirrors that. -/
def create_source_cluster (env : Env) (args : List String) : List ApiCall :=
  [ .create_db_cluster_parameter_group source_param_group_name
      "aurora-mysql8.0" "For Aurora MySQL zero-ETL integrations",
    .modify_db_cluster_parameter_group source_param_group_name
      sourceBinlogParams,
    .create_db_cluster source_cluster_name source_param_group_name
      "aurora-mysql" "8.0.mysql_aurora.3.05.0" "myauroradb"
      "username" "Password01**" ]
  ++ create_target_cluster env target_cluster_name env.createSourceArn
      target_param_group_name
  ++ [ .create_db_instance "db.r6g.2xlarge" source_cluster_name
        (source_cluster_name ++ "-instance") "aurora-mysql" ]

/-- Trace of `create_integration(source_arn, target_arn)`. -/
def create_integration (source_arn target_arn : String) : List ApiCall :=
  [ .create_integration source_arn target_arn "my-integration" ]

/-- The three describe calls issued at the start of each poll cycle of
`wait_for_cluster_availability`. -/
def pollCalls : List ApiCall :=
  [ .describe_db_clusters source_cluster_name,
    .describe_db_instances (source_cluster_name ++ "-instance"),
    .describe_clusters target_cluster_name ]

/-- The branch condition of the waiter at poll cycle `n`, in the order the
script tests it: source status, then target status, then source instance
status, each compared against "available" with the not-equal operator. -/
def notAllAvailable (env : Env) (n : Nat) : Bool :=
  env.pollSourceStatus n != "available"
    || env.pollTargetStatus n != "available"
    || env.pollInstanceStatus n != "available"

/-- Trace of `wait_for_cluster_availability(*args)` starting at poll cycle
`n`, with explicit `fuel` bounding the number of poll cycles we are willing
to unfold; `none` means the recursion did not terminate within `fuel`
cycles.  `args` mirrors the ignored Python `*args`. -/
def wait_for_cluster_availability (env : Env) (args : List String)
    (n : Nat) : Nat → Option (List ApiCall)
  | 0 => none
  | fuel + 1 =>
    if notAllAvailable env n then
      match wait_for_cluster_availability env
          [source_cluster_name, target_cluster_name] (n + 1) fuel with
      | some w => some (pollCalls ++ ApiCall.sleepCall 60 :: w)
      | none => none
    else
      some (pollCalls
        ++ create_integration (env.pollSourceArn n) (env.pollNamespaceArn n))

/-- Trace of `main()`: `create_source_cluster(...)` followed by
`wait_for_cluster_availability(...)` (with the fuel bound threaded
through). -/
def mainRun (env : Env) (fuel : Nat) : Option (List ApiCall) :=
  match wait_for_cluster_availability env
      [source_cluster_name, target_cluster_name] 0 fuel with
  | some w =>
      some (create_source_cluster env
        [source_cluster_name, source_param_group_name] ++ w)
  | none => none

/-- Is this call a `sleep`? -/
def isSleepCall : ApiCall → Bool
  | .sleepCall _ => true
  | _ => false

/-- Is this call `rds.create_integration`? -/
def isIntegrationCall : ApiCall → Bool
  | .create_integration _ _ _ => true
  | _ => false

/-- Is this call a deletion of a resource?  The embedded script emits no
such call. -/
def isDeleteCall : ApiCall → Bool
  | .delete_resource _ => true
  | _ => false

/-- Is this call `redshift.put_resource_policy`? -/
def isPutPolicyCall : ApiCall → Bool
  | .put_resource_policy _ _ => true
  | _ => false

/-- Is this call `rds.create_db_cluster_parameter_group`? -/
def isSourcePGCreate : ApiCall → Bool
  | .create_db_cluster_parameter_group _ _ _ => true
  | _ => false

/-- Is this call `rds.create_db_cluster`? -/
def isSourceClusterCreate : ApiCall → Bool
  | .create_db_cluster _ _ _ _ _ _ _ => true
  | _ => false

/-- Is this call `redshift.create_cluster_parameter_group`? -/
def isTargetPGCreate : ApiCall → Bool
  | .create_cluster_parameter_group _ _ _ => true
  | _ => false

/-- Is this call `redshift.create_cluster`? -/
def isTargetClusterCreate : ApiCall → Bool
  | .create_cluster _ _ _ _ _ _ _ => true
  | _ => false

/-- Is this call `rds.modify_db_cluster_parameter_group`? -/
def isModifySourcePG : ApiCall → Bool
  | .modify_db_cluster_parameter_group _ _ => true
  | _ => false

/-- The trace the waiter produces when, starting at poll cycle `n`, the
first all-available cycle is `n + k`: `k` full cycles of polls plus a
60-second sleep, then a final cycle of polls followed by the integration
call built from the ARNs discovered in that final cycle. -/
def waitSeg (env : Env) (n : Nat) : Nat → List ApiCall
  | 0 => pollCalls
      ++ create_integration (env.pollSourceArn n) (env.pollNamespaceArn n)
  | k + 1 => pollCalls ++ ApiCall.sleepCall 60 :: waitSeg env (n + 1) k

/-- The three calls `create_source_cluster` issues before delegating to
`create_target_cluster`. -/
def sourceHeadCalls : List ApiCall :=
  [ .create_db_cluster_parameter_group source_param_group_name
      "aurora-mysql8.0" "For Aurora MySQL zero-ETL integrations",
    .modify_db_cluster_parameter_group source_param_group_name
      sourceBinlogParams,
    .create_db_cluster source_cluster_name source_param_group_name
      "aurora-mysql" "8.0.mysql_aurora.3.05.0" "myauroradb"
      "username" "Password01**" ]

/-- The `rds.create_db_instance` call that creates the writer instance on
the source cluster, issued after target provisioning returns. -/
def writerInstanceCall : ApiCall :=
  .create_db_instance "db.r6g.2xlarge" source_cluster_name
    (source_cluster_name ++ "-instance") "aurora-mysql"

/-- Modelled from the spec: the script installs no exception handler, so
the first API call that raises a fault aborts the rest of the run ("every
operation either succeeds or raises an unhandled fault that terminates the
process immediately").  Given which call indices fail, this replays an
intended call sequence from call index `k`, stopping right after the first
failing call; the Bool is `true` when the run completed normally. -/
def runWithFailures (fails : Nat → Bool) : List ApiCall → Nat → List ApiCall × Bool
  | [], _ => ([], true)
  | c :: cs, k =>
    if fails k then
      ([c], false)
    else
      (c :: (runWithFailures fails cs (k + 1)).1,
        (runWithFailures fails cs (k + 1)).2)

/-- The six binary-logging parameters in the order the claim lists them. -/
def claimBinlogParams : List RdsParam :=
  [ ⟨"aurora_enhanced_binlog", "1", "pending-reboot"⟩,
    ⟨"binlog_format", "ROW", "pending-reboot"⟩,
    ⟨"binlog_row_image", "full", "pending-reboot"⟩,
    ⟨"binlog_row_metadata", "full", "pending-reboot"⟩,
    ⟨"binlog_backup", "0", "pending-reboot"⟩,
    ⟨"binlog_replication_globaldb", "0", "pending-reboot"⟩ ]

/-- The mocked backend of the end-to-end scenario: every status reports
"available" from the first poll cycle on, and the ARNs are the ones named
in the scenario. -/
def mockEnv : Env where
  createSourceArn := "arn:aws:rds:...:cluster:my-source-cluster"
  namespaceArn := "arn:aws:redshift:...:namespace:my-target-cluster"
  accountId := "123456789012"
  pollSourceStatus := fun _ => "available"
  pollInstanceStatus := fun _ => "available"
  pollTargetStatus := fun _ => "available"
  pollSourceArn := fun _ => "arn:aws:rds:...:cluster:my-source-cluster"
  pollNamespaceArn := fun _ => "arn:aws:redshift:...:namespace:my-target-cluster"

/-- A mocked backend whose statuses report "creating" for the first two
poll cycles and "available" from cycle 2 on. -/
def envDelay : Env where
  createSourceArn := "arn:src"
  namespaceArn := "arn:ns"
  accountId := "000000000000"
  pollSourceStatus := fun n => if n < 2 then "creating" else "available"
  pollInstanceStatus := fun n => if n < 2 then "creating" else "available"
  pollTargetStatus := fun n => if n < 2 then "creating" else "available"
  pollSourceArn := fun _ => "arn:src"
  pollNamespaceArn := fun _ => "arn:ns"

/-- A mocked backend whose statuses report "creating" forever. -/
def envNever : Env where
  createSourceArn := "arn:src"
  namespaceArn := "arn:ns"
  accountId := "000000000000"
  pollSourceStatus := fun _ => "creating"
  pollInstanceStatus := fun _ => "creating"
  pollTargetStatus := fun _ => "creating"
  pollSourceArn := fun _ => "arn:src"
  pollNamespaceArn := fun _ => "arn:ns"

/-- The full trace of a run against `mockEnv` (one poll cycle suffices). -/
def mockTrace : List ApiCall := (mainRun mockEnv 1).getD []

/-- The waiter trace against `envDelay` with fuel 3. -/
def delayTrace : List ApiCall :=
  (wait_for_cluster_availability envDelay [] 0 3).getD []

/-- A failure pattern in which exactly the call at index 3 fails. -/
def failsAt3 : Nat → Bool := fun i => i == 3

/-- One-step unfolding of the waiter. -/
theorem wait_unfold (env : Env) (args : List String) (n fuel : Nat) :
    wait_for_cluster_availability env args n (fuel + 1) =
      if notAllAvailable env n then
        match wait_for_cluster_availability env
            [source_cluster_name, target_cluster_name] (n + 1) fuel with
        | some w => some (pollCalls ++ ApiCall.sleepCall 60 :: w)
        | none => none
      else
        some (pollCalls
          ++ create_integration (env.pollSourceArn n) (env.pollNamespaceArn n)) :=
  rfl

/-- A terminating waiter run starting at cycle `n` is exactly `waitSeg env n k`
for the number `k` of not-all-available cycles it sat through, and cycle
`n + k` is the first all-available cycle at or after `n`. -/
theorem wait_some_decomp (env : Env) (fuel : Nat) :
    ∀ (n : Nat) (args : List String) (w : List ApiCall),
      wait_for_cluster_availability env args n fuel = some w →
      ∃ k, (∀ i, i < k → notAllAvailable env (n + i) = true) ∧
        notAllAvailable env (n + k) = false ∧ w = waitSeg env n k := by
  induction fuel with
  | zero =>
    intro n args w h
    simp [wait_for_cluster_availability] at h
  | succ fuel ih =>
    intro n args w h
    by_cases hc : notAllAvailable env n = true
    · rw [wait_unfold, if_pos hc] at h
      cases hr : wait_for_cluster_availability env
          [source_cluster_name, target_cluster_name] (n + 1) fuel with
      | none => rw [hr] at h; cases h
      | some w' =>
        rw [hr] at h
        cases h
        obtain ⟨k, hk1, hk2, hk3⟩ := ih (n + 1)
          [source_cluster_name, target_cluster_name] w' hr
        refine ⟨k + 1, ?_, ?_, ?_⟩
        · intro i hi
          cases i with
          | zero => simpa using hc
          | succ j =>
            have heq : n + (j + 1) = (n + 1) + j := by omega
            rw [heq]
            exact hk1 j (by omega)
        · have heq : n + (k + 1) = (n + 1) + k := by omega
          rw [heq]
          exact hk2
        · simp [waitSeg, hk3]
    · rw [wait_unfold, if_neg hc] at h
      cases h
      refine ⟨0, ?_, ?_, rfl⟩
      · intro i hi
        exact absurd hi (Nat.not_lt_zero i)
      · simpa using Bool.not_eq_true _ ▸ hc

/-- If all cycles before `n + k` (from `n` on) are not all-available and
cycle `n + k` is all-available, then fuel `k + 1` suffices and the waiter
produces `waitSeg env n k`. -/
theorem wait_avail_some (env : Env) (k : Nat) :
    ∀ (n : Nat) (args : List String),
      (∀ i, i < k → notAllAvailable env (n + i) = true) →
      notAllAvailable env (n + k) = false →
      wait_for_cluster_availability env args n (k + 1) = some (waitSeg env n k) := by
  induction k with
  | zero =>
    intro n args _ hav
    rw [wait_unfold, if_neg]
    · rfl
    · simpa using hav
  | succ k ih =>
    intro n args hlt hav
    have h0 : notAllAvailable env n = true := by simpa using hlt 0 (by omega)
    have hrec := ih (n + 1) [source_cluster_name, target_cluster_name]
      (fun i hi => by
        have heq : (n + 1) + i = n + (i + 1) := by omega
        rw [heq]
        exact hlt (i + 1) (by omega))
      (by
        have heq : (n + 1) + k = n + (k + 1) := by omega
        rw [heq]
        exact hav)
    rw [wait_unfold, if_pos h0, hrec]
    rfl

/-- `waitSeg` is never empty. -/
theorem waitSeg_ne_nil (env : Env) (n k : Nat) : waitSeg env n k ≠ [] := by
  cases k <;> simp [waitSeg, pollCalls]

/-- `waitSeg env n k` contains exactly `k` sleep calls. -/
theorem waitSeg_countP_sleep (env : Env) (k : Nat) :
    ∀ n, (waitSeg env n k).countP isSleepCall = k := by
  induction k with
  | zero => intro n; rfl
  | succ k ih =>
    intro n
    have : (waitSeg env (n + 1) k).countP isSleepCall = k := ih (n + 1)
    simp [waitSeg, List.countP_append, List.countP_cons, this, isSleepCall,
      pollCalls]

/-- Every sleep call in `waitSeg` sleeps 60 seconds. -/
theorem waitSeg_sleep_sixty (env : Env) (k : Nat) :
    ∀ n c, c ∈ waitSeg env n k → isSleepCall c = true → c = .sleepCall 60 := by
  induction k with
  | zero =>
    intro n c hc hs
    simp [waitSeg, pollCalls, create_integration] at hc
    rcases hc with rfl | rfl | rfl | rfl <;> simp [isSleepCall] at hs
  | succ k ih =>
    intro n c hc hs
    simp [waitSeg, pollCalls] at hc
    rcases hc with rfl | rfl | rfl | rfl | hc
    · simp [isSleepCall] at hs
    · simp [isSleepCall] at hs
    · simp [isSleepCall] at hs
    · rfl
    · exact ih (n + 1) c hc hs

/-- The last call of `waitSeg env n k` is the integration creation built
from the ARNs discovered at cycle `n + k`. -/
theorem waitSeg_getLast (env : Env) (k : Nat) :
    ∀ n, (waitSeg env n k).getLast? =
      some (.create_integration (env.pollSourceArn (n + k))
        (env.pollNamespaceArn (n + k)) "my-integration") := by
  induction k with
  | zero => intro n; rfl
  | succ k ih =>
    intro n
    have h1 := ih (n + 1)
    rw [show (n + 1) + k = n + (k + 1) from by omega] at h1
    show (pollCalls ++ ApiCall.sleepCall 60 :: waitSeg env (n + 1) k).getLast? = _
    have hsplit : pollCalls ++ ApiCall.sleepCall 60 :: waitSeg env (n + 1) k
        = (pollCalls ++ [ApiCall.sleepCall 60]) ++ waitSeg env (n + 1) k := by
      simp
    rw [hsplit, List.getLast?_append, h1]
    rfl

/-- `waitSeg` contains no deletion call. -/
theorem waitSeg_no_delete (env : Env) (k : Nat) :
    ∀ n c, c ∈ waitSeg env n k → isDeleteCall c = false := by
  induction k with
  | zero =>
    intro n c hc
    simp [waitSeg, pollCalls, create_integration] at hc
    rcases hc with rfl | rfl | rfl | rfl <;> rfl
  | succ k ih =>
    intro n c hc
    simp [waitSeg, pollCalls] at hc
    rcases hc with rfl | rfl | rfl | rfl | hc
    · rfl
    · rfl
    · rfl
    · rfl
    · exact ih (n + 1) c hc

/-- The provisioning trace contains no deletion call. -/
theorem create_source_no_delete (env : Env) (args : List String) :
    ∀ c ∈ create_source_cluster env args, isDeleteCall c = false := by
  intro c hc
  simp [create_source_cluster, create_target_cluster] at hc
  rcases hc with rfl | rfl | rfl | rfl | rfl | rfl | rfl | rfl | rfl | rfl <;> rfl

/-- A full run issues no deletion call. -/
theorem mainRun_no_delete (env : Env) (fuel : Nat) (t : List ApiCall)
    (h : mainRun env fuel = some t) : ∀ c ∈ t, isDeleteCall c = false := by
  intro c hc
  unfold mainRun at h
  cases hw : wait_for_cluster_availability env
      [source_cluster_name, target_cluster_name] 0 fuel with
  | none => rw [hw] at h; cases h
  | some w =>
    rw [hw] at h
    cases h
    rcases List.mem_append.mp hc with hsrc | hwait
    · exact create_source_no_delete env _ c hsrc
    · obtain ⟨k, _, _, hk⟩ := wait_some_decomp env fuel 0 _ w hw
      rw [hk] at hwait
      exact waitSeg_no_delete env k 0 c hwait

/-- If the first failing call index is `s + k` (relative failures before it
all succeed), replaying a call list from index `s` issues exactly the calls
up to and including the failing one and reports an abnormal end. -/
theorem runWithFailures_halt (fails : Nat → Bool) :
    ∀ (l : List ApiCall) (s k : Nat), k < l.length → fails (s + k) = true →
      (∀ i, i < k → fails (s + i) = false) →
      runWithFailures fails l s = (l.take (k + 1), false) := by
  intro l
  induction l with
  | nil => intro s k hk _ _; simp at hk
  | cons c cs ih =>
    intro s k hk hf hmin
    cases k with
    | zero =>
      have h0 : fails s = true := by simpa using hf
      simp [runWithFailures, h0]
    | succ k' =>
      have h0 : fails s = false := by simpa using hmin 0 (by omega)
      have hr := ih (s + 1) k' (by simpa using hk)
        (by
          rw [show (s + 1) + k' = s + (k' + 1) from by omega]
          exact hf)
        (fun i hi => by
          rw [show (s + 1) + i = s + (i + 1) from by omega]
          exact hmin (i + 1) (by omega))
      simp [runWithFailures, h0, hr]

/-- C1: against the mocked backend `mockEnv` (source cluster ARN
`arn:aws:rds:...:cluster:my-source-cluster`, target namespace ARN
`arn:aws:redshift:...:namespace:my-target-cluster`, every status
"available" from the first poll cycle), the full run makes exactly one
integration call, with SourceArn the source cluster ARN, TargetArn the
namespace ARN, and IntegrationName "my-integration". -/
theorem claim_C1_mock_end_to_end :
    notAllAvailable mockEnv 0 = false ∧
      (mainRun mockEnv 1).map (List.filter isIntegrationCall) =
        some [ .create_integration "arn:aws:rds:...:cluster:my-source-cluster"
          "arn:aws:redshift:...:namespace:my-target-cluster" "my-integration" ] :=
  ⟨rfl, rfl⟩

/-- C2: for every status sequence, a terminating waiter run only contains an
integration call if some poll cycle at or after the start is all-available
(and every cycle before the first such cycle is not); and a cycle that is
not all-available contributes only its three polls and a sleep, with no
integration call among the polls. -/
theorem claim_C2_no_integration_before_available :
    ∀ (env : Env) (args : List String) (n fuel : Nat) (w : List ApiCall),
      wait_for_cluster_availability env args n fuel = some w →
      (∀ sa ta nm, ApiCall.create_integration sa ta nm ∈ w →
        ∃ m, n ≤ m ∧ notAllAvailable env m = false ∧
          ∀ i, n ≤ i → i < m → notAllAvailable env i = true) ∧
      (notAllAvailable env n = true →
        ∃ w', w = pollCalls ++ ApiCall.sleepCall 60 :: w' ∧
          ∀ sa ta nm, ApiCall.create_integration sa ta nm ∉ pollCalls) := by
  intro env args n fuel w h
  obtain ⟨k, h1, h2, h3⟩ := wait_some_decomp env fuel n args w h
  constructor
  · intro sa ta nm _
    refine ⟨n + k, by omega, h2, fun i hni hik => ?_⟩
    have := h1 (i - n) (by omega)
    rwa [show n + (i - n) = i from by omega] at this
  · intro hna
    cases k with
    | zero =>
      rw [Nat.add_zero] at h2
      rw [hna] at h2
      exact Bool.noConfusion h2
    | succ k' =>
      refine ⟨waitSeg env (n + 1) k', by rw [h3]; rfl, ?_⟩
      intro sa ta nm hmem
      simp [pollCalls] at hmem

/-- Witness for C2 at the delayed mock backend with fuel 3. -/
theorem claim_C2_witness :
    (∀ sa ta nm, ApiCall.create_integration sa ta nm ∈ delayTrace →
      ∃ m, 0 ≤ m ∧ notAllAvailable envDelay m = false ∧
        ∀ i, 0 ≤ i → i < m → notAllAvailable envDelay i = true) ∧
    (notAllAvailable envDelay 0 = true →
      ∃ w', delayTrace = pollCalls ++ ApiCall.sleepCall 60 :: w' ∧
        ∀ sa ta nm, ApiCall.create_integration sa ta nm ∉ pollCalls) :=
  claim_C2_no_integration_before_available envDelay [] 0 3 delayTrace rfl

/-- C3: in the provisioning trace, the source parameter-group creation call
comes strictly before the source cluster creation call, and the target
parameter-group creation call comes strictly before the target cluster
creation call (and both cluster creation calls occur in the trace). -/
theorem claim_C3_param_group_before_cluster :
    ∀ (env : Env) (args : List String),
      (create_source_cluster env args).findIdx isSourcePGCreate
          < (create_source_cluster env args).findIdx isSourceClusterCreate ∧
        (create_source_cluster env args).findIdx isSourceClusterCreate
          < (create_source_cluster env args).length ∧
        (create_source_cluster env args).findIdx isTargetPGCreate
          < (create_source_cluster env args).findIdx isTargetClusterCreate ∧
        (create_source_cluster env args).findIdx isTargetClusterCreate
          < (create_source_cluster env args).length := by
  intro env args
  refine ⟨?_, ?_, ?_, ?_⟩
  · show (0 : Nat) < 2
    decide
  · show (2 : Nat) < 10
    decide
  · show (3 : Nat) < 5
    decide
  · show (5 : Nat) < 10
    decide

/-- C4: the one `put_resource_policy` call of the provisioning trace is
attached to the namespace ARN obtained from describing the target cluster,
and its policy document is the template instantiated with the source
cluster ARN returned by cluster creation and the account id returned by the
identity lookup; the template places the first hole directly after
the text naming the aws:SourceArn condition key and the second hole inside
the principal text arn:aws:iam::...:root. -/
theorem claim_C4_resource_policy_contents :
    ∀ (env : Env) (args : List String),
      (create_source_cluster env args).filter isPutPolicyCall
          = [ .put_resource_policy env.namespaceArn
              (policyDocument env.createSourceArn env.accountId) ] ∧
        (∀ sarn acct, (policyDocument sarn acct).data
          = policyPart1.data ++ sarn.data ++ policyPart2.data
            ++ acct.data ++ policyPart3.data) ∧
        "\"aws:SourceArn\":\"".data <:+ policyPart1.data ∧
        "\"\x7d".data <+: policyPart2.data ∧
        "\"AWS\":\"arn:aws:iam::".data <:+ policyPart2.data ∧
        ":root\"".data <+: policyPart3.data := by
  intro env args
  refine ⟨rfl, ?_, ?_, ?_, ?_, ?_⟩
  · intro sarn acct
    simp [policyDocument, String.data_append]
  · decide
  · decide
  · decide
  · decide

/-- C5: if the statuses are not all available for the first N poll cycles
and all available at cycle N, the waiter (with fuel N + 1) terminates with
a trace containing exactly N sleep calls, all of 60 seconds, and ending
with the integration call built from the ARNs of cycle N. -/
theorem claim_C5_exact_sleep_count :
    ∀ (env : Env) (args : List String) (N : Nat),
      (∀ i, i < N → notAllAvailable env i = true) →
      notAllAvailable env N = false →
      ∃ w, wait_for_cluster_availability env args 0 (N + 1) = some w ∧
        w.countP isSleepCall = N ∧
        (∀ c ∈ w, isSleepCall c = true → c = .sleepCall 60) ∧
        w.getLast? = some (.create_integration (env.pollSourceArn N)
          (env.pollNamespaceArn N) "my-integration") := by
  intro env args N hlt hav
  have h := wait_avail_some env N 0 args
    (fun i hi => by simpa using hlt i hi) (by simpa using hav)
  refine ⟨waitSeg env 0 N, h, waitSeg_countP_sleep env N 0,
    fun c hc hs => waitSeg_sleep_sixty env N 0 c hc hs, ?_⟩
  simpa using waitSeg_getLast env N 0

/-- Witness for C5: two not-available cycles, then availability. -/
theorem claim_C5_witness :
    ∃ w, wait_for_cluster_availability envDelay [] 0 3 = some w ∧
      w.countP isSleepCall = 2 ∧
      (∀ c ∈ w, isSleepCall c = true → c = .sleepCall 60) ∧
      w.getLast? = some (.create_integration (envDelay.pollSourceArn 2)
        (envDelay.pollNamespaceArn 2) "my-integration") :=
  claim_C5_exact_sleep_count envDelay [] 2 (by decide) (by decide)

/-- C6: the waiter terminates (for some fuel) exactly when some poll cycle
is all-available; when no cycle ever is, every fuel bound is exhausted, so
the recursion never ends. -/
theorem claim_C6_terminates_iff_available :
    ∀ (env : Env) (args : List String),
      ((∃ fuel w, wait_for_cluster_availability env args 0 fuel = some w) ↔
        (∃ n, notAllAvailable env n = false)) ∧
      ((∀ n, notAllAvailable env n = true) →
        ∀ fuel, wait_for_cluster_availability env args 0 fuel = none) := by
  intro env args
  constructor
  · constructor
    · rintro ⟨fuel, w, hw⟩
      obtain ⟨k, _, h2, _⟩ := wait_some_decomp env fuel 0 args w hw
      exact ⟨0 + k, h2⟩
    · rintro ⟨n, hn⟩
      have hex : ∃ m, notAllAvailable env m = false := ⟨n, hn⟩
      refine ⟨Nat.find hex + 1, waitSeg env 0 (Nat.find hex),
        wait_avail_some env (Nat.find hex) 0 args ?_ ?_⟩
      · intro i hi
        have := Nat.find_min hex hi
        simpa using this
      · simpa using Nat.find_spec hex
  · intro hall fuel
    cases hf : wait_for_cluster_availability env args 0 fuel with
    | none => rfl
    | some w =>
      obtain ⟨k, _, h2, _⟩ := wait_some_decomp env fuel 0 args w hf
      rw [hall (0 + k)] at h2
      exact Bool.noConfusion h2

/-- Witness for C6 at a backend that never becomes available. -/
theorem claim_C6_witness :
    ((∃ fuel w, wait_for_cluster_availability envNever [] 0 fuel = some w) ↔
      (∃ n, notAllAvailable envNever n = false)) ∧
    ((∀ n, notAllAvailable envNever n = true) →
      ∀ fuel, wait_for_cluster_availability envNever [] 0 fuel = none) :=
  claim_C6_terminates_iff_available envNever []

/-- C7: a completed run decomposes, in order, into the three source
provisioning calls, then the whole target provisioning trace, then the
writer-instance creation, then the waiter trace, whose last call is the
integration creation. -/
theorem claim_C7_forward_control_flow :
    ∀ (env : Env) (fuel : Nat) (t : List ApiCall),
      mainRun env fuel = some t →
      ∃ w, wait_for_cluster_availability env
          [source_cluster_name, target_cluster_name] 0 fuel = some w ∧
        t = sourceHeadCalls
            ++ create_target_cluster env target_cluster_name env.createSourceArn
              target_param_group_name
            ++ [writerInstanceCall] ++ w ∧
        ∃ sa ta, w.getLast? = some (.create_integration sa ta "my-integration") := by
  intro env fuel t h
  unfold mainRun at h
  cases hw : wait_for_cluster_availability env
      [source_cluster_name, target_cluster_name] 0 fuel with
  | none => rw [hw] at h; cases h
  | some w =>
    rw [hw] at h
    cases h
    refine ⟨w, rfl, ?_, ?_⟩
    · simp [create_source_cluster, sourceHeadCalls, writerInstanceCall]
    · obtain ⟨k, _, _, h3⟩ := wait_some_decomp env fuel 0 _ w hw
      rw [h3]
      exact ⟨_, _, waitSeg_getLast env k 0⟩

/-- Witness for C7 on the full mocked run. -/
theorem claim_C7_witness :
    ∃ w, wait_for_cluster_availability mockEnv
        [source_cluster_name, target_cluster_name] 0 1 = some w ∧
      mockTrace = sourceHeadCalls
          ++ create_target_cluster mockEnv target_cluster_name
            mockEnv.createSourceArn target_param_group_name
          ++ [writerInstanceCall] ++ w ∧
      ∃ sa ta, w.getLast? = some (.create_integration sa ta "my-integration") :=
  claim_C7_forward_control_flow mockEnv 1 mockTrace rfl

/-- C8: if the call at index k of a completed-run call sequence is the
first to raise, the run issues exactly the calls up to and including index
k (no retry, nothing after the fault) and ends abnormally; and the sequence
contains no deletion call, so earlier resources are never rolled back. -/
theorem claim_C8_fault_halts_run :
    ∀ (env : Env) (fuel : Nat) (t : List ApiCall) (fails : Nat → Bool) (k : Nat),
      mainRun env fuel = some t →
      k < t.length → fails k = true → (∀ i, i < k → fails i = false) →
      runWithFailures fails t 0 = (t.take (k + 1), false) ∧
      (t.take (k + 1)).length = k + 1 ∧
      (∀ c ∈ t, isDeleteCall c = false) := by
  intro env fuel t fails k hm hk hf hmin
  refine ⟨?_, ?_, ?_⟩
  · exact runWithFailures_halt fails t 0 k hk (by simpa using hf)
      (fun i hi => by simpa using hmin i hi)
  · simp [List.length_take]
    omega
  · exact mainRun_no_delete env fuel t hm

/-- Witness for C8: the fourth call of the mocked run fails. -/
theorem claim_C8_witness :
    runWithFailures failsAt3 mockTrace 0 = (mockTrace.take 4, false) ∧
    (mockTrace.take 4).length = 4 ∧
    (∀ c ∈ mockTrace, isDeleteCall c = false) :=
  claim_C8_fault_halts_run mockEnv 1 mockTrace failsAt3 3 rfl
    (by decide) (by decide) (by decide)

/-- C9: the one `modify_db_cluster_parameter_group` call of the
provisioning trace carries exactly the six binary-logging parameters the
claim lists (as a set), each with apply method pending-reboot. -/
theorem claim_C9_binlog_parameters :
    ∀ (env : Env) (args : List String),
      (create_source_cluster env args).filter isModifySourcePG
          = [ .modify_db_cluster_parameter_group source_param_group_name
              sourceBinlogParams ] ∧
        sourceBinlogParams.Perm claimBinlogParams ∧
        (∀ p ∈ sourceBinlogParams, p.applyMethod = "pending-reboot") := by
  intro env args
  exact ⟨rfl, by decide, by decide⟩

/-- C10: `create_source_cluster` and `wait_for_cluster_availability` ignore
their positional arguments: any two argument lists yield identical call
sequences. -/
theorem claim_C10_args_ignored :
    ∀ (env : Env) (a b : List String) (n fuel : Nat),
      create_source_cluster env a = create_source_cluster env b ∧
      wait_for_cluster_availability env a n fuel
        = wait_for_cluster_availability env b n fuel := by
  intro env a b n fuel
  exact ⟨rfl, by cases fuel <;> rfl⟩

end ZeroEtl
